import Mathlib

/-!
Verification of the nudge session/state engine against its interface
(src/include/nudge.h).  The repository ships only the C header: every
function body is modelled from the spec, with the header doc comments as
the in-source authority where they speak.  Machine time is a monotonic
`Nat` clock passed explicitly to the operations that consult it.
-/

namespace Nudge

/-- Error codes of the `NudgeError` enum in include/nudge.h (lines 58-66). -/
inductive NudgeError where
  | success
  | nullPointer
  | invalidUtf8
  | configLoadFailed
  | runtime
  | contextFreed
  | runtimeCreateFailed
deriving DecidableEq

/-- The integer value of each enum constant, exactly as written in the header:
NUDGE_SUCCESS = 0, NUDGE_ERROR_NULL_POINTER = -1, NUDGE_ERROR_INVALID_UTF8 = -2,
NUDGE_ERROR_CONFIG_LOAD_FAILED = -3, NUDGE_ERROR_RUNTIME = -4,
NUDGE_ERROR_CONTEXT_FREED = -5, NUDGE_ERROR_RUNTIME_CREATE_FAILED = -6. -/
def NudgeError.toInt : NudgeError → Int
  | .success => 0
  | .nullPointer => -1
  | .invalidUtf8 => -2
  | .configLoadFailed => -3
  | .runtime => -4
  | .contextFreed => -5
  | .runtimeCreateFailed => -6

/-- Modelled from the spec: a human-readable message for each error kind,
recorded in the error slot when an operation fails (the message bodies are
not under src/, only the error taxonomy is). -/
def NudgeError.defaultMessage : NudgeError → String
  | .success => "success"
  | .nullPointer => "null pointer argument"
  | .invalidUtf8 => "invalid UTF-8 string"
  | .configLoadFailed => "failed to load configuration"
  | .runtime => "runtime error"
  | .contextFreed => "context already freed"
  | .runtimeCreateFailed => "failed to create runtime"

/-- A `const char*` argument at the FFI boundary: NULL, a pointer to bytes
that are not valid UTF-8, or valid UTF-8 text. -/
inductive CStr where
  | null
  | invalid
  | valid (s : String)
deriving DecidableEq

/-- A completion request snapshot: (buffer, cursor, cwd, session_id), the four
inputs of nudge_complete / nudge_auto_update_buffer. -/
structure Request where
  buffer : String
  cursor : Int
  cwd : String
  session_id : String
deriving DecidableEq

/-- Result of one Suggestion Backend call: a suggestion with an optional
danger warning, or a failure reason. -/
inductive BackendResult where
  | ok (suggestion : String) (warning : Option String)
  | err (reason : String)
deriving DecidableEq

/-- Modelled from the spec: the Suggestion Backend is an external collaborator
(suggest(request) -> suggestion/warning or failure); its implementation is not
under src/.  The engine is parameterised over it. -/
def Backend : Type := Request → BackendResult

/-- An error record: error kind plus human-readable message (spec section 3). -/
structure ErrorRecord where
  code : NudgeError
  message : String
deriving DecidableEq

/-- Phase of the Debounce State Machine (spec section 4.4). -/
inductive Phase where
  | inactive
  | armed
  | pending
  | stopped
deriving DecidableEq

/-- Modelled from the spec: the DebounceState owned by a session handle.  The
implementation behind the auto-mode functions is not under src/; only the
declarations in include/nudge.h are.  `deadline` is a monotonic instant. -/
structure DebounceState where
  phase : Phase
  delay : Nat
  pending_request : Option Request
  deadline : Nat
  callback : Nat
  user_data : Nat
deriving DecidableEq

/-- Modelled from the spec: the session handle state behind the opaque
NudgeContext pointer.  Callbacks are identified by opaque numeric ids. -/
structure NudgeState where
  freed : Bool
  error_slot : Option ErrorRecord
  auto : Option DebounceState
  last_auto_suggestion : Option String
deriving DecidableEq

/-- A fresh handle as produced by nudge_init on success: not freed, no error,
auto-mode never started, no auto suggestion yet. -/
def NudgeState.init : NudgeState :=
  { freed := false, error_slot := none, auto := none, last_auto_suggestion := none }

/-- One delivery of the three-nullable-string callback
(CompletionCallback in include/nudge.h, lines 79-84): which callback id was
invoked, its user_data, and the (suggestion, warning, error) payload. -/
structure Invocation where
  cb : Nat
  user_data : Nat
  suggestion : Option String
  warning : Option String
  error : Option String
deriving DecidableEq

/-- The error record stored when an auto-mode operation is attempted while
auto-mode is not active (mapped to Runtime, spec section 4.4). -/
def notActiveRecord : ErrorRecord :=
  ⟨NudgeError.runtime, "auto mode not active"⟩

/-- The error record stored when auto_trigger finds nothing pending
(mapped to Runtime, spec section 4.4). -/
def nothingPendingRecord : ErrorRecord :=
  ⟨NudgeError.runtime, "nothing pending"⟩

/-- The debounce machine right after a fired completion attempt: snapshot
consumed, timer cancelled, back to Armed ready for the next burst. -/
def DebounceState.fired (d : DebounceState) : DebounceState :=
  { d with phase := Phase.armed, pending_request := none }

/-- The debounce machine after auto_stop: pending request discarded, moved to
the terminal Stopped phase. -/
def DebounceState.halted (d : DebounceState) : DebounceState :=
  { d with phase := Phase.stopped, pending_request := none }

/-- Modelled from the spec: input validation common to the completion paths.
Null arguments fail with NullPointer, non-UTF-8 arguments fail with
InvalidUtf8, otherwise the four inputs form a Request. -/
def buildRequest (buffer : CStr) (cursor : Int) (cwd : CStr) (session_id : CStr) :
    Except NudgeError Request :=
  match buffer, cwd, session_id with
  | .null, _, _ => .error .nullPointer
  | _, .null, _ => .error .nullPointer
  | _, _, .null => .error .nullPointer
  | .invalid, _, _ => .error .invalidUtf8
  | _, .invalid, _ => .error .invalidUtf8
  | _, _, .invalid => .error .invalidUtf8
  | .valid b, .valid c, .valid s => .ok ⟨b, cursor, c, s⟩

/-- Modelled from the spec: nudge_complete (declared in include/nudge.h lines
112-120; the body is not under src/).  Validates inputs, calls the backend
synchronously, and delivers the result through the callback exactly once
before returning; the returned invocation list is that synchronous delivery.
Result: (new context, status code, callback invocations). -/
def nudge_complete (B : Backend) (ctx : Option NudgeState) (buffer : CStr)
    (cursor : Int) (cwd : CStr) (session_id : CStr) (cb : Nat) (ud : Nat) :
    Option NudgeState × Int × List Invocation :=
  match ctx with
  | none => (none, NudgeError.nullPointer.toInt, [])
  | some st =>
    if st.freed then (some st, NudgeError.contextFreed.toInt, [])
    else
      match buildRequest buffer cursor cwd session_id with
      | .error e =>
        (some { st with error_slot := some ⟨e, e.defaultMessage⟩ },
         e.toInt, [⟨cb, ud, none, none, some e.defaultMessage⟩])
      | .ok req =>
        match B req with
        | .ok s w =>
          (some st, NudgeError.success.toInt, [⟨cb, ud, some s, w, none⟩])
        | .err r =>
          (some { st with error_slot := some ⟨NudgeError.runtime, r⟩ },
           NudgeError.runtime.toInt, [⟨cb, ud, none, none, some r⟩])

/-- Modelled from the spec: nudge_free (include/nudge.h lines 133-140).
Idempotent: no-op on NULL or an already-freed handle; otherwise cancels the
debounce cycle, releases owned memory (fields cleared) and marks freed. -/
def nudge_free : Option NudgeState → Option NudgeState
  | none => none
  | some st =>
    if st.freed then some st
    else some { freed := true, error_slot := none, auto := none,
                last_auto_suggestion := none }

/-- Modelled from the spec: nudge_auto_start (include/nudge.h lines 172-177).
(Re)initialises the DebounceState to Armed with the given delay and callback,
discarding any prior cycle wholesale. -/
def nudge_auto_start (ctx : Option NudgeState) (delay_ms : Nat) (cb : Nat)
    (ud : Nat) : Option NudgeState × Int :=
  match ctx with
  | none => (none, NudgeError.nullPointer.toInt)
  | some st =>
    if st.freed then (some st, NudgeError.contextFreed.toInt)
    else
      (some { st with auto := some ⟨Phase.armed, delay_ms, none, 0, cb, ud⟩ },
       NudgeError.success.toInt)

/-- Modelled from the spec: nudge_auto_update_buffer (include/nudge.h lines
192-198).  The header says "This will reset the debounce timer"; the snapshot
is replaced wholesale and deadline becomes now + delay.  Fails with Runtime
when auto-mode is not active.  `now` is the monotonic clock at call time. -/
def nudge_auto_update_buffer (ctx : Option NudgeState) (now : Nat)
    (buffer : CStr) (cursor : Int) (cwd : CStr) (session_id : CStr) :
    Option NudgeState × Int :=
  match ctx with
  | none => (none, NudgeError.nullPointer.toInt)
  | some st =>
    if st.freed then (some st, NudgeError.contextFreed.toInt)
    else
      match buildRequest buffer cursor cwd session_id with
      | .error e =>
        (some { st with error_slot := some ⟨e, e.defaultMessage⟩ }, e.toInt)
      | .ok req =>
        match st.auto with
        | none =>
          (some { st with error_slot := some notActiveRecord },
           NudgeError.runtime.toInt)
        | some d =>
          if d.phase = Phase.inactive ∨ d.phase = Phase.stopped then
            (some { st with error_slot := some notActiveRecord },
             NudgeError.runtime.toInt)
          else
            (some { st with auto := some ⟨Phase.pending, d.delay, some req, now + d.delay, d.callback, d.user_data⟩ },
             NudgeError.success.toInt)

/-- Modelled from the spec: nudge_auto_trigger (include/nudge.h lines
211-215).  The header directs the caller to call it after the debounce delay
has elapsed; it completes the queued pending_request using the callback and
user_data supplied to this call, consuming the snapshot (so no second
delivery can occur) and re-arming the machine.  With nothing pending, or
auto-mode not active, it fails with Runtime. -/
def nudge_auto_trigger (B : Backend) (ctx : Option NudgeState) (cb : Nat)
    (ud : Nat) : Option NudgeState × Int × List Invocation :=
  match ctx with
  | none => (none, NudgeError.nullPointer.toInt, [])
  | some st =>
    if st.freed then (some st, NudgeError.contextFreed.toInt, [])
    else
      match st.auto with
      | none =>
        (some { st with error_slot := some notActiveRecord },
         NudgeError.runtime.toInt, [])
      | some d =>
        if d.phase = Phase.inactive ∨ d.phase = Phase.stopped then
          (some { st with error_slot := some notActiveRecord },
           NudgeError.runtime.toInt, [])
        else
          match d.pending_request with
          | none =>
            (some { st with error_slot := some nothingPendingRecord },
             NudgeError.runtime.toInt, [])
          | some req =>
            match B req with
            | .ok s w =>
              (some { st with auto := some d.fired, last_auto_suggestion := some s },
               NudgeError.success.toInt, [⟨cb, ud, some s, w, none⟩])
            | .err r =>
              (some { st with auto := some d.fired, error_slot := some ⟨NudgeError.runtime, r⟩ },
               NudgeError.runtime.toInt, [⟨cb, ud, none, none, some r⟩])

/-- Modelled from the spec: nudge_auto_stop (include/nudge.h lines 231-237).
Discards the pending request and moves the machine to Stopped; idempotent. -/
def nudge_auto_stop (ctx : Option NudgeState) : Option NudgeState × Int :=
  match ctx with
  | none => (none, NudgeError.nullPointer.toInt)
  | some st =>
    if st.freed then (some st, NudgeError.contextFreed.toInt)
    else
      match st.auto with
      | none => (some st, NudgeError.success.toInt)
      | some d =>
        (some { st with auto := some d.halted }, NudgeError.success.toInt)

/-- Modelled from the spec: nudge_auto_is_active (include/nudge.h lines
239-245).  Returns 1 for Armed/Pending, 0 for Inactive/Stopped, a NULL
context, a freed handle, or auto-mode never started. -/
def nudge_auto_is_active (ctx : Option NudgeState) : Int :=
  match ctx with
  | none => 0
  | some st =>
    if st.freed then 0
    else
      match st.auto with
      | none => 0
      | some d =>
        if d.phase = Phase.armed ∨ d.phase = Phase.pending then 1 else 0

/-- Modelled from the spec: nudge_auto_get_suggestion (include/nudge.h lines
217-229).  Returns the last successful auto-mode suggestion, or NULL. -/
def nudge_auto_get_suggestion : Option NudgeState → Option String
  | none => none
  | some st => if st.freed then none else st.last_auto_suggestion

/-- Modelled from the spec: nudge_auto_get_delay_ms (include/nudge.h lines
247-253).  Returns the configured delay, default 500 if not configured. -/
def nudge_auto_get_delay_ms : Option NudgeState → Nat
  | none => 500
  | some st =>
    match st.auto with
    | none => 500
    | some d => d.delay

/-- Modelled from the spec: one externally caused transition of the engine.
Every public function in include/nudge.h is a caller-invoked entry point; the
header documents no autonomous transition (its doc for nudge_auto_trigger
reads "This function should be called after the debounce delay has elapsed"),
so the events below are exactly the ways the state of a handle can change.
Timestamps are carried by the events that consult the clock. -/
inductive Event where
  | complete (buffer : CStr) (cursor : Int) (cwd : CStr) (session_id : CStr)
      (cb : Nat) (ud : Nat)
  | autoStart (delay_ms : Nat) (cb : Nat) (ud : Nat)
  | autoUpdateBuffer (now : Nat) (buffer : CStr) (cursor : Int) (cwd : CStr)
      (session_id : CStr)
  | autoTrigger (cb : Nat) (ud : Nat)
  | autoStop
  | free

/-- Effect of one event on a handle: new context plus the callback
invocations delivered during that call. -/
def step (B : Backend) (ctx : Option NudgeState) :
    Event → Option NudgeState × List Invocation
  | .complete b cur c s cb ud =>
    let r := nudge_complete B ctx b cur c s cb ud
    (r.1, r.2.2)
  | .autoStart dm cb ud => ((nudge_auto_start ctx dm cb ud).1, [])
  | .autoUpdateBuffer now b cur c s =>
    ((nudge_auto_update_buffer ctx now b cur c s).1, [])
  | .autoTrigger cb ud =>
    let r := nudge_auto_trigger B ctx cb ud
    (r.1, r.2.2)
  | .autoStop => ((nudge_auto_stop ctx).1, [])
  | .free => (nudge_free ctx, [])

/-- Run a sequence of caller events, collecting every callback invocation
delivered along the way. -/
def run (B : Backend) : Option NudgeState → List Event →
    Option NudgeState × List Invocation
  | ctx, [] => (ctx, [])
  | ctx, e :: es =>
    let r := step B ctx e
    let rest := run B r.1 es
    (rest.1, r.2 ++ rest.2)

/-- The phase of the debounce machine of a context, when one exists. -/
def phaseOf (ctx : Option NudgeState) : Option Phase :=
  ctx.bind fun st => st.auto.map fun d => d.phase

/-- The debounce deadline of a context, when one exists. -/
def deadlineOf (ctx : Option NudgeState) : Option Nat :=
  ctx.bind fun st => st.auto.map fun d => d.deadline

/-- A backend that always succeeds with a fixed suggestion. -/
def okBackend : Backend := fun _ => .ok "git status" none

/-- A backend that echoes the request buffer as the suggestion, so the
delivered payload identifies which snapshot was completed. -/
def echoBackend : Backend := fun r => .ok r.buffer none

/-- A backend that always fails. -/
def errBackend : Backend := fun _ => .err "backend failure"

/-- The set of status codes a status-returning operation may produce. -/
def statusCodes : List Int := [0, -1, -2, -3, -4, -5, -6]

/-- A concrete request snapshot used as a test fixture. -/
def reqX : Request := ⟨"git sta", 7, "/home/u/proj", "s1"⟩

/-- A debounce machine in Pending with reqX queued, delay 500, stored
callback id 7 with user_data 0, deadline 510. -/
def pendingMachine : DebounceState := ⟨Phase.pending, 500, some reqX, 510, 7, 0⟩

/-- A live handle whose debounce machine is pendingMachine. -/
def pendingHandle : NudgeState := ⟨false, none, some pendingMachine, none⟩

/-- A debounce machine in Armed with no pending snapshot. -/
def armedMachine : DebounceState := ⟨Phase.armed, 500, none, 0, 7, 0⟩

/-- A live handle whose debounce machine is armedMachine. -/
def armedHandle : NudgeState := ⟨false, none, some armedMachine, none⟩

/-- A handle on which nudge_free has already run. -/
def freedHandle : NudgeState := ⟨true, none, none, none⟩

/-- Caller events of the C1 scenario: auto_start(500, callback 7) followed by
one buffer update at t=0, and then no further caller action. -/
def c1trace : List Event :=
  [Event.autoStart 500 7 0,
   Event.autoUpdateBuffer 0 (CStr.valid "rm -rf /") 8 (CStr.valid "/home/u")
     (CStr.valid "s1")]

/-- Caller events of the C2 debounce-reset scenario: auto_start with delay
500 then buffer updates at t=0, t=200 and t=400. -/
def c2trace : List Event :=
  [Event.autoStart 500 7 0,
   Event.autoUpdateBuffer 0 (CStr.valid "g") 1 (CStr.valid "/h") (CStr.valid "s1"),
   Event.autoUpdateBuffer 200 (CStr.valid "git") 3 (CStr.valid "/h") (CStr.valid "s1"),
   Event.autoUpdateBuffer 400 (CStr.valid "git sta") 7 (CStr.valid "/h") (CStr.valid "s1")]

/-- Every enum value lies in the fixed status-code set. -/
theorem toInt_mem_statusCodes (e : NudgeError) : e.toInt ∈ statusCodes := by
  cases e <;> simp [NudgeError.toInt, statusCodes]

/-- Every status code produced by nudge_complete is the value of some
NudgeError. -/
theorem complete_code_total (B : Backend) (ctx : Option NudgeState) (b : CStr)
    (cur : Int) (c : CStr) (s : CStr) (cb ud : Nat) :
    ∃ e : NudgeError, (nudge_complete B ctx b cur c s cb ud).2.1 = e.toInt := by
  cases ctx with
  | none => exact ⟨NudgeError.nullPointer, rfl⟩
  | some st =>
    by_cases hf : st.freed = true
    · exact ⟨NudgeError.contextFreed, by simp [nudge_complete, hf]⟩
    · cases hb : buildRequest b cur c s with
      | error e => exact ⟨e, by simp [nudge_complete, hf, hb]⟩
      | ok req =>
        cases hB : B req with
        | ok sug w =>
          exact ⟨NudgeError.success, by simp [nudge_complete, hf, hb, hB]⟩
        | err r =>
          exact ⟨NudgeError.runtime, by simp [nudge_complete, hf, hb, hB]⟩

/-- Every status code produced by nudge_auto_start is the value of some
NudgeError. -/
theorem auto_start_code_total (ctx : Option NudgeState) (dm cb ud : Nat) :
    ∃ e : NudgeError, (nudge_auto_start ctx dm cb ud).2 = e.toInt := by
  cases ctx with
  | none => exact ⟨NudgeError.nullPointer, rfl⟩
  | some st =>
    by_cases hf : st.freed = true
    · exact ⟨NudgeError.contextFreed, by simp [nudge_auto_start, hf]⟩
    · exact ⟨NudgeError.success, by simp [nudge_auto_start, hf]⟩

/-- Every status code produced by nudge_auto_update_buffer is the value of
some NudgeError. -/
theorem auto_update_code_total (ctx : Option NudgeState) (now : Nat)
    (b : CStr) (cur : Int) (c : CStr) (s : CStr) :
    ∃ e : NudgeError, (nudge_auto_update_buffer ctx now b cur c s).2 = e.toInt := by
  cases ctx with
  | none => exact ⟨NudgeError.nullPointer, rfl⟩
  | some st =>
    by_cases hf : st.freed = true
    · exact ⟨NudgeError.contextFreed, by simp [nudge_auto_update_buffer, hf]⟩
    · cases hb : buildRequest b cur c s with
      | error e => exact ⟨e, by simp [nudge_auto_update_buffer, hf, hb]⟩
      | ok req =>
        cases ha : st.auto with
        | none =>
          exact ⟨NudgeError.runtime, by simp [nudge_auto_update_buffer, hf, hb, ha]⟩
        | some d =>
          by_cases hph : d.phase = Phase.inactive ∨ d.phase = Phase.stopped
          · exact ⟨NudgeError.runtime,
              by simp [nudge_auto_update_buffer, hf, hb, ha, hph]⟩
          · exact ⟨NudgeError.success,
              by simp [nudge_auto_update_buffer, hf, hb, ha, hph]⟩

/-- Every status code produced by nudge_auto_trigger is the value of some
NudgeError. -/
theorem auto_trigger_code_total (B : Backend) (ctx : Option NudgeState)
    (cb ud : Nat) :
    ∃ e : NudgeError, (nudge_auto_trigger B ctx cb ud).2.1 = e.toInt := by
  cases ctx with
  | none => exact ⟨NudgeError.nullPointer, rfl⟩
  | some st =>
    by_cases hf : st.freed = true
    · exact ⟨NudgeError.contextFreed, by simp [nudge_auto_trigger, hf]⟩
    · cases ha : st.auto with
      | none => exact ⟨NudgeError.runtime, by simp [nudge_auto_trigger, hf, ha]⟩
      | some d =>
        by_cases hph : d.phase = Phase.inactive ∨ d.phase = Phase.stopped
        · exact ⟨NudgeError.runtime, by simp [nudge_auto_trigger, hf, ha, hph]⟩
        · cases hq : d.pending_request with
          | none =>
            exact ⟨NudgeError.runtime, by simp [nudge_auto_trigger, hf, ha, hph, hq]⟩
          | some req =>
            cases hB : B req with
            | ok sug w =>
              exact ⟨NudgeError.success,
                by simp [nudge_auto_trigger, hf, ha, hph, hq, hB]⟩
            | err r =>
              exact ⟨NudgeError.runtime,
                by simp [nudge_auto_trigger, hf, ha, hph, hq, hB]⟩

/-- Every status code produced by nudge_auto_stop is the value of some
NudgeError. -/
theorem auto_stop_code_total (ctx : Option NudgeState) :
    ∃ e : NudgeError, (nudge_auto_stop ctx).2 = e.toInt := by
  cases ctx with
  | none => exact ⟨NudgeError.nullPointer, rfl⟩
  | some st =>
    by_cases hf : st.freed = true
    · exact ⟨NudgeError.contextFreed, by simp [nudge_auto_stop, hf]⟩
    · cases ha : st.auto with
      | none => exact ⟨NudgeError.success, by simp [nudge_auto_stop, hf, ha]⟩
      | some d => exact ⟨NudgeError.success, by simp [nudge_auto_stop, hf, ha]⟩

/-- C9: every status-returning public operation returns exactly one value
from the fixed set 0, -1, -2, -3, -4, -5, -6, with 0 meaning success and
each error kind mapped to its fixed distinct negative integer: NullPointer
-1, InvalidUtf8 -2, ConfigLoadFailed -3, Runtime -4, ContextFreed -5,
RuntimeCreateFailed -6. -/
theorem status_codes_fixed :
    (NudgeError.success.toInt = 0 ∧ NudgeError.nullPointer.toInt = -1 ∧
     NudgeError.invalidUtf8.toInt = -2 ∧ NudgeError.configLoadFailed.toInt = -3 ∧
     NudgeError.runtime.toInt = -4 ∧ NudgeError.contextFreed.toInt = -5 ∧
     NudgeError.runtimeCreateFailed.toInt = -6)
  ∧ (∀ (B : Backend) (ctx : Option NudgeState) (b : CStr) (cur : Int)
       (c s : CStr) (cb ud : Nat),
       (nudge_complete B ctx b cur c s cb ud).2.1 ∈ statusCodes)
  ∧ (∀ (ctx : Option NudgeState) (dm cb ud : Nat),
       (nudge_auto_start ctx dm cb ud).2 ∈ statusCodes)
  ∧ (∀ (ctx : Option NudgeState) (now : Nat) (b : CStr) (cur : Int) (c s : CStr),
       (nudge_auto_update_buffer ctx now b cur c s).2 ∈ statusCodes)
  ∧ (∀ (B : Backend) (ctx : Option NudgeState) (cb ud : Nat),
       (nudge_auto_trigger B ctx cb ud).2.1 ∈ statusCodes)
  ∧ (∀ (ctx : Option NudgeState), (nudge_auto_stop ctx).2 ∈ statusCodes) := by
  refine ⟨⟨rfl, rfl, rfl, rfl, rfl, rfl, rfl⟩, ?_, ?_, ?_, ?_, ?_⟩
  · intro B ctx b cur c s cb ud
    obtain ⟨e, he⟩ := complete_code_total B ctx b cur c s cb ud
    rw [he]; exact toInt_mem_statusCodes e
  · intro ctx dm cb ud
    obtain ⟨e, he⟩ := auto_start_code_total ctx dm cb ud
    rw [he]; exact toInt_mem_statusCodes e
  · intro ctx now b cur c s
    obtain ⟨e, he⟩ := auto_update_code_total ctx now b cur c s
    rw [he]; exact toInt_mem_statusCodes e
  · intro B ctx cb ud
    obtain ⟨e, he⟩ := auto_trigger_code_total B ctx cb ud
    rw [he]; exact toInt_mem_statusCodes e
  · intro ctx
    obtain ⟨e, he⟩ := auto_stop_code_total ctx
    rw [he]; exact toInt_mem_statusCodes e

/-- C10: nudge_auto_get_delay_ms returns the default 500 when auto-mode was
never started (or for a NULL context), and otherwise the delay fixed at
auto_start time, which later auto-mode operations never change. -/
theorem auto_get_delay_spec (st st2 : NudgeState) (d : DebounceState)
    (delay_ms cb ud now : Nat) (B : Backend) (b : CStr) (cur : Int) (c s : CStr)
    (hns : st.auto = none) (hf : st.freed = false)
    (hf2 : st2.freed = false) (ha2 : st2.auto = some d) :
    nudge_auto_get_delay_ms (some st) = 500
  ∧ nudge_auto_get_delay_ms none = 500
  ∧ nudge_auto_get_delay_ms (some NudgeState.init) = 500
  ∧ nudge_auto_get_delay_ms ((nudge_auto_start (some st) delay_ms cb ud).1) = delay_ms
  ∧ nudge_auto_get_delay_ms ((nudge_auto_update_buffer (some st2) now b cur c s).1) = d.delay
  ∧ nudge_auto_get_delay_ms ((nudge_auto_trigger B (some st2) cb ud).1) = d.delay
  ∧ nudge_auto_get_delay_ms ((nudge_auto_stop (some st2)).1) = d.delay := by
  refine ⟨by simp [nudge_auto_get_delay_ms, hns], rfl, rfl, ?_, ?_, ?_, ?_⟩
  · simp [nudge_auto_start, hf, nudge_auto_get_delay_ms]
  · cases hb : buildRequest b cur c s with
    | error e => simp [nudge_auto_update_buffer, hf2, hb, nudge_auto_get_delay_ms, ha2]
    | ok req =>
      by_cases hph : d.phase = Phase.inactive ∨ d.phase = Phase.stopped
      · simp [nudge_auto_update_buffer, hf2, hb, ha2, hph, nudge_auto_get_delay_ms]
      · simp [nudge_auto_update_buffer, hf2, hb, ha2, hph, nudge_auto_get_delay_ms]
  · by_cases hph : d.phase = Phase.inactive ∨ d.phase = Phase.stopped
    · simp [nudge_auto_trigger, hf2, ha2, hph, nudge_auto_get_delay_ms]
    · cases hq : d.pending_request with
      | none => simp [nudge_auto_trigger, hf2, ha2, hph, hq, nudge_auto_get_delay_ms]
      | some req =>
        cases hB : B req with
        | ok sug w =>
          simp [nudge_auto_trigger, hf2, ha2, hph, hq, hB,
                nudge_auto_get_delay_ms, DebounceState.fired]
        | err r =>
          simp [nudge_auto_trigger, hf2, ha2, hph, hq, hB,
                nudge_auto_get_delay_ms, DebounceState.fired]
  · simp [nudge_auto_stop, hf2, ha2, nudge_auto_get_delay_ms, DebounceState.halted]

/-- Witness for C10 at concrete inputs. -/
theorem auto_get_delay_spec_witness :
    (NudgeState.init.auto = none ∧ NudgeState.init.freed = false ∧
     pendingHandle.freed = false ∧ pendingHandle.auto = some pendingMachine)
  ∧ (nudge_auto_get_delay_ms (some NudgeState.init) = 500
     ∧ nudge_auto_get_delay_ms none = 500
     ∧ nudge_auto_get_delay_ms (some NudgeState.init) = 500
     ∧ nudge_auto_get_delay_ms ((nudge_auto_start (some NudgeState.init) 250 1 2).1) = 250
     ∧ nudge_auto_get_delay_ms ((nudge_auto_update_buffer (some pendingHandle) 100 (CStr.valid "x") 0 (CStr.valid "/") (CStr.valid "t")).1) = pendingMachine.delay
     ∧ nudge_auto_get_delay_ms ((nudge_auto_trigger okBackend (some pendingHandle) 1 2).1) = pendingMachine.delay
     ∧ nudge_auto_get_delay_ms ((nudge_auto_stop (some pendingHandle)).1) = pendingMachine.delay) :=
  ⟨⟨rfl, rfl, rfl, rfl⟩,
   auto_get_delay_spec NudgeState.init pendingHandle pendingMachine 250 1 2 100
     okBackend (CStr.valid "x") 0 (CStr.valid "/") (CStr.valid "t")
     rfl rfl rfl rfl⟩

/-- C5: every operation on a freed handle fails with ContextFreed, leaving
the handle untouched and delivering no callback; nudge_free is an idempotent
no-op on an already-freed or NULL handle. -/
theorem freed_handle_safety (B : Backend) (st : NudgeState) (b : CStr)
    (cur : Int) (c s : CStr) (cb ud dm now : Nat) (hf : st.freed = true) :
    nudge_complete B (some st) b cur c s cb ud = (some st, NudgeError.contextFreed.toInt, [])
  ∧ nudge_auto_start (some st) dm cb ud = (some st, NudgeError.contextFreed.toInt)
  ∧ nudge_auto_update_buffer (some st) now b cur c s = (some st, NudgeError.contextFreed.toInt)
  ∧ nudge_auto_trigger B (some st) cb ud = (some st, NudgeError.contextFreed.toInt, [])
  ∧ nudge_auto_stop (some st) = (some st, NudgeError.contextFreed.toInt)
  ∧ nudge_free (some st) = some st
  ∧ nudge_free none = none := by
  refine ⟨?_, ?_, ?_, ?_, ?_, ?_, rfl⟩ <;>
    simp [nudge_complete, nudge_auto_start, nudge_auto_update_buffer,
          nudge_auto_trigger, nudge_auto_stop, nudge_free, hf]

/-- Witness for C5 at a concrete freed handle. -/
theorem freed_handle_safety_witness :
    freedHandle.freed = true
  ∧ (nudge_complete okBackend (some freedHandle) (CStr.valid "git sta") 7
       (CStr.valid "/home/u/proj") (CStr.valid "s1") 1 2 =
       (some freedHandle, NudgeError.contextFreed.toInt, [])
     ∧ nudge_auto_start (some freedHandle) 500 1 2 = (some freedHandle, NudgeError.contextFreed.toInt)
     ∧ nudge_auto_update_buffer (some freedHandle) 0 (CStr.valid "git sta") 7
         (CStr.valid "/home/u/proj") (CStr.valid "s1") = (some freedHandle, NudgeError.contextFreed.toInt)
     ∧ nudge_auto_trigger okBackend (some freedHandle) 1 2 = (some freedHandle, NudgeError.contextFreed.toInt, [])
     ∧ nudge_auto_stop (some freedHandle) = (some freedHandle, NudgeError.contextFreed.toInt)
     ∧ nudge_free (some freedHandle) = some freedHandle
     ∧ nudge_free none = none) :=
  ⟨rfl,
   freed_handle_safety okBackend freedHandle (CStr.valid "git sta") 7
     (CStr.valid "/home/u/proj") (CStr.valid "s1") 1 2 500 0 rfl⟩

/-- C7: nudge_auto_stop discards the pending request, moves the machine to
Stopped and reports success; a second consecutive call is a no-op returning
the same state, and auto_is_active is 0 afterwards. -/
theorem auto_stop_idempotent (st : NudgeState) (d : DebounceState)
    (hf : st.freed = false) (ha : st.auto = some d) :
    (nudge_auto_stop (some st)).2 = 0
  ∧ (nudge_auto_stop (some st)).1 = some { st with auto := some d.halted }
  ∧ d.halted.phase = Phase.stopped
  ∧ d.halted.pending_request = none
  ∧ nudge_auto_stop ((nudge_auto_stop (some st)).1) = ((nudge_auto_stop (some st)).1, 0)
  ∧ nudge_auto_is_active ((nudge_auto_stop (some st)).1) = 0 := by
  refine ⟨?_, ?_, rfl, rfl, ?_, ?_⟩
  · simp [nudge_auto_stop, hf, ha, NudgeError.toInt]
  · simp [nudge_auto_stop, hf, ha]
  · simp [nudge_auto_stop, hf, ha, DebounceState.halted, NudgeError.toInt]
  · simp [nudge_auto_stop, hf, ha, nudge_auto_is_active, DebounceState.halted]

/-- Witness for C7 at a concrete pending handle. -/
theorem auto_stop_idempotent_witness :
    (pendingHandle.freed = false ∧ pendingHandle.auto = some pendingMachine)
  ∧ ((nudge_auto_stop (some pendingHandle)).2 = 0
     ∧ (nudge_auto_stop (some pendingHandle)).1 = some { pendingHandle with auto := some pendingMachine.halted }
     ∧ pendingMachine.halted.phase = Phase.stopped
     ∧ pendingMachine.halted.pending_request = none
     ∧ nudge_auto_stop ((nudge_auto_stop (some pendingHandle)).1) = ((nudge_auto_stop (some pendingHandle)).1, 0)
     ∧ nudge_auto_is_active ((nudge_auto_stop (some pendingHandle)).1) = 0) :=
  ⟨⟨rfl, rfl⟩, auto_stop_idempotent pendingHandle pendingMachine rfl rfl⟩

/-- C3: on a live handle, nudge_complete delivers the callback exactly once
per call, synchronously as part of the call, whether the operation succeeds
or fails (the invocation list of the call has length one in every case). -/
theorem complete_callback_once (B : Backend) (st : NudgeState) (b : CStr)
    (cur : Int) (c s : CStr) (cb ud : Nat) (hf : st.freed = false) :
    (nudge_complete B (some st) b cur c s cb ud).2.2.length = 1 := by
  cases hb : buildRequest b cur c s with
  | error e => simp [nudge_complete, hf, hb]
  | ok req =>
    cases hB : B req with
    | ok sug w => simp [nudge_complete, hf, hb, hB]
    | err r => simp [nudge_complete, hf, hb, hB]

/-- Witness for C3: one success case and one failure case, each delivering
exactly one callback invocation. -/
theorem complete_callback_once_witness :
    NudgeState.init.freed = false
  ∧ (nudge_complete okBackend (some NudgeState.init) (CStr.valid "git sta") 7
       (CStr.valid "/home/u/proj") (CStr.valid "s1") 1 2).2.2.length = 1
  ∧ (nudge_complete errBackend (some NudgeState.init) (CStr.valid "git sta") 7
       (CStr.valid "/home/u/proj") (CStr.valid "s1") 1 2).2.2.length = 1 :=
  ⟨rfl,
   complete_callback_once okBackend NudgeState.init (CStr.valid "git sta") 7
     (CStr.valid "/home/u/proj") (CStr.valid "s1") 1 2 rfl,
   complete_callback_once errBackend NudgeState.init (CStr.valid "git sta") 7
     (CStr.valid "/home/u/proj") (CStr.valid "s1") 1 2 rfl⟩

/-- C1 counterexample: with the events of c1trace (auto_start then one buffer
update) and no further caller action, no callback invocation is ever
delivered and the machine stays in Pending forever, never returning to
Armed.  The public functions of include/nudge.h are the only transitions of
a handle and the header documents no autonomous one (its doc for
nudge_auto_trigger directs the caller to call it after the delay elapses),
so the engine does not fire on its own when the deadline passes. -/
theorem no_autonomous_fire_counterexample :
    (run okBackend (some NudgeState.init) c1trace).2 = []
  ∧ phaseOf (run okBackend (some NudgeState.init) c1trace).1 = some Phase.pending
  ∧ ¬ phaseOf (run okBackend (some NudgeState.init) c1trace).1 = some Phase.armed := by
  have h2 : phaseOf (run okBackend (some NudgeState.init) c1trace).1 =
      some Phase.pending := rfl
  refine ⟨rfl, h2, ?_⟩
  rw [h2]
  simp

/-- C1 (amended): firing is caller-driven rather than autonomous.  When the
caller invokes auto_trigger on a handle whose machine is Pending with a
queued snapshot, the engine runs the Completion Request Pipeline on that
snapshot exactly once, invokes the callback supplied to that auto_trigger
call, and returns the machine to Armed. -/
theorem auto_fire_caller_driven (B : Backend) (st : NudgeState)
    (d : DebounceState) (req : Request) (cb ud : Nat)
    (hf : st.freed = false) (ha : st.auto = some d)
    (hp : d.phase = Phase.pending) (hq : d.pending_request = some req) :
    (nudge_auto_trigger B (some st) cb ud).2.2.length = 1
  ∧ (∃ inv : Invocation, (nudge_auto_trigger B (some st) cb ud).2.2 = [inv] ∧
       inv.cb = cb ∧ inv.user_data = ud)
  ∧ (∃ st2 d2, (nudge_auto_trigger B (some st) cb ud).1 = some st2 ∧
       st2.auto = some d2 ∧ d2.phase = Phase.armed ∧
       d2.pending_request = none) := by
  have hph : ¬ (d.phase = Phase.inactive ∨ d.phase = Phase.stopped) := by
    simp [hp]
  cases hB : B req with
  | ok sug w =>
    refine ⟨by simp [nudge_auto_trigger, hf, ha, hph, hq, hB],
      ⟨⟨cb, ud, some sug, w, none⟩,
        by simp [nudge_auto_trigger, hf, ha, hph, hq, hB], rfl, rfl⟩,
      ⟨{ st with auto := some d.fired, last_auto_suggestion := some sug }, d.fired,
        by simp [nudge_auto_trigger, hf, ha, hph, hq, hB], rfl, rfl, rfl⟩⟩
  | err r =>
    refine ⟨by simp [nudge_auto_trigger, hf, ha, hph, hq, hB],
      ⟨⟨cb, ud, none, none, some r⟩,
        by simp [nudge_auto_trigger, hf, ha, hph, hq, hB], rfl, rfl⟩,
      ⟨{ st with auto := some d.fired, error_slot := some ⟨NudgeError.runtime, r⟩ },
        d.fired,
        by simp [nudge_auto_trigger, hf, ha, hph, hq, hB], rfl, rfl, rfl⟩⟩

/-- Witness for the amended C1 at a concrete pending handle. -/
theorem auto_fire_caller_driven_witness :
    (pendingHandle.freed = false ∧ pendingHandle.auto = some pendingMachine ∧
     pendingMachine.phase = Phase.pending ∧
     pendingMachine.pending_request = some reqX)
  ∧ ((nudge_auto_trigger okBackend (some pendingHandle) 9 1).2.2.length = 1
     ∧ (∃ inv : Invocation,
          (nudge_auto_trigger okBackend (some pendingHandle) 9 1).2.2 = [inv] ∧
          inv.cb = 9 ∧ inv.user_data = 1)
     ∧ (∃ st2 d2,
          (nudge_auto_trigger okBackend (some pendingHandle) 9 1).1 = some st2 ∧
          st2.auto = some d2 ∧ d2.phase = Phase.armed ∧
          d2.pending_request = none)) :=
  ⟨⟨rfl, rfl, rfl, rfl⟩,
   auto_fire_caller_driven okBackend pendingHandle pendingMachine reqX 9 1
     rfl rfl rfl rfl⟩

/-- C2: each successful auto_update_buffer on an active machine replaces the
pending snapshot wholesale and resets the deadline to now + delay; with
delay 500 and updates at t=0, t=200 and t=400, the deadline ends at 900, not
500, and a single fire then delivers exactly one invocation carrying the
last snapshot. -/
theorem auto_update_debounce_reset (st : NudgeState) (d : DebounceState)
    (now : Nat) (b c s : String) (cur : Int)
    (hf : st.freed = false) (ha : st.auto = some d)
    (hp : d.phase = Phase.armed ∨ d.phase = Phase.pending) :
    nudge_auto_update_buffer (some st) now (CStr.valid b) cur (CStr.valid c) (CStr.valid s) =
      (some { st with auto := some ⟨Phase.pending, d.delay, some ⟨b, cur, c, s⟩, now + d.delay, d.callback, d.user_data⟩ }, 0)
  ∧ deadlineOf (run echoBackend (some NudgeState.init) c2trace).1 = some 900
  ∧ ¬ deadlineOf (run echoBackend (some NudgeState.init) c2trace).1 = some 500
  ∧ (run echoBackend (some NudgeState.init) (c2trace ++ [Event.autoTrigger 9 1])).2 =
      [⟨9, 1, some "git sta", none, none⟩] := by
  have hph : ¬ (d.phase = Phase.inactive ∨ d.phase = Phase.stopped) := by
    rcases hp with h | h <;> simp [h]
  have h900 : deadlineOf (run echoBackend (some NudgeState.init) c2trace).1 =
      some 900 := rfl
  refine ⟨?_, h900, ?_, rfl⟩
  · simp [nudge_auto_update_buffer, hf, ha, hph, buildRequest, NudgeError.toInt]
  · rw [h900]; simp

/-- Witness for C2 at a concrete armed handle. -/
theorem auto_update_debounce_reset_witness :
    (armedHandle.freed = false ∧ armedHandle.auto = some armedMachine ∧
     (armedMachine.phase = Phase.armed ∨ armedMachine.phase = Phase.pending))
  ∧ (nudge_auto_update_buffer (some armedHandle) 0 (CStr.valid "g") 1 (CStr.valid "/h") (CStr.valid "s1") =
       (some { armedHandle with auto := some ⟨Phase.pending, armedMachine.delay, some ⟨"g", 1, "/h", "s1"⟩, 0 + armedMachine.delay, armedMachine.callback, armedMachine.user_data⟩ }, 0)
     ∧ deadlineOf (run echoBackend (some NudgeState.init) c2trace).1 = some 900
     ∧ ¬ deadlineOf (run echoBackend (some NudgeState.init) c2trace).1 = some 500
     ∧ (run echoBackend (some NudgeState.init) (c2trace ++ [Event.autoTrigger 9 1])).2 =
         [⟨9, 1, some "git sta", none, none⟩]) :=
  ⟨⟨rfl, rfl, Or.inl rfl⟩,
   auto_update_debounce_reset armedHandle armedMachine 0 "g" "/h" "s1" 1
     rfl rfl (Or.inl rfl)⟩

/-- C4: on a live handle, backend success makes nudge_complete deliver
(suggestion, warning-or-absent, absent) and return 0; backend failure
records the error on the handle, delivers (absent, absent, error_message)
and returns the negative Runtime code; invalid encoding fails fast with
InvalidUtf8, the callback receiving only the error argument. -/
theorem complete_payload (Bok Berr Bany : Backend) (st : NudgeState)
    (b c s : String) (cur : Int) (cb ud : Nat) (sug : String)
    (w : Option String) (r : String)
    (hf : st.freed = false)
    (hok : Bok ⟨b, cur, c, s⟩ = BackendResult.ok sug w)
    (herr : Berr ⟨b, cur, c, s⟩ = BackendResult.err r) :
    nudge_complete Bok (some st) (CStr.valid b) cur (CStr.valid c) (CStr.valid s) cb ud =
      (some st, 0, [⟨cb, ud, some sug, w, none⟩])
  ∧ (nudge_complete Berr (some st) (CStr.valid b) cur (CStr.valid c) (CStr.valid s) cb ud).2.1 =
      NudgeError.runtime.toInt
  ∧ (nudge_complete Berr (some st) (CStr.valid b) cur (CStr.valid c) (CStr.valid s) cb ud).2.2 =
      [⟨cb, ud, none, none, some r⟩]
  ∧ (nudge_complete Berr (some st) (CStr.valid b) cur (CStr.valid c) (CStr.valid s) cb ud).1 =
      some { st with error_slot := some ⟨NudgeError.runtime, r⟩ }
  ∧ NudgeError.runtime.toInt < 0
  ∧ (nudge_complete Bany (some st) CStr.invalid cur (CStr.valid c) (CStr.valid s) cb ud).2.1 =
      NudgeError.invalidUtf8.toInt
  ∧ (nudge_complete Bany (some st) CStr.invalid cur (CStr.valid c) (CStr.valid s) cb ud).2.2 =
      [⟨cb, ud, none, none, some NudgeError.invalidUtf8.defaultMessage⟩] := by
  refine ⟨?_, ?_, ?_, ?_, by decide, ?_, ?_⟩ <;>
    simp [nudge_complete, hf, buildRequest, hok, herr, NudgeError.toInt]

/-- Witness for C4 at concrete inputs with a succeeding and a failing
backend. -/
theorem complete_payload_witness :
    (NudgeState.init.freed = false ∧
     okBackend ⟨"git sta", 7, "/home/u/proj", "s1"⟩ = BackendResult.ok "git status" none ∧
     errBackend ⟨"git sta", 7, "/home/u/proj", "s1"⟩ = BackendResult.err "backend failure")
  ∧ (nudge_complete okBackend (some NudgeState.init) (CStr.valid "git sta") 7 (CStr.valid "/home/u/proj") (CStr.valid "s1") 1 2 =
       (some NudgeState.init, 0, [⟨1, 2, some "git status", none, none⟩])
     ∧ (nudge_complete errBackend (some NudgeState.init) (CStr.valid "git sta") 7 (CStr.valid "/home/u/proj") (CStr.valid "s1") 1 2).2.1 =
         NudgeError.runtime.toInt
     ∧ (nudge_complete errBackend (some NudgeState.init) (CStr.valid "git sta") 7 (CStr.valid "/home/u/proj") (CStr.valid "s1") 1 2).2.2 =
         [⟨1, 2, none, none, some "backend failure"⟩]
     ∧ (nudge_complete errBackend (some NudgeState.init) (CStr.valid "git sta") 7 (CStr.valid "/home/u/proj") (CStr.valid "s1") 1 2).1 =
         some { NudgeState.init with error_slot := some ⟨NudgeError.runtime, "backend failure"⟩ }
     ∧ NudgeError.runtime.toInt < 0
     ∧ (nudge_complete okBackend (some NudgeState.init) CStr.invalid 7 (CStr.valid "/home/u/proj") (CStr.valid "s1") 1 2).2.1 =
         NudgeError.invalidUtf8.toInt
     ∧ (nudge_complete okBackend (some NudgeState.init) CStr.invalid 7 (CStr.valid "/home/u/proj") (CStr.valid "s1") 1 2).2.2 =
         [⟨1, 2, none, none, some NudgeError.invalidUtf8.defaultMessage⟩]) :=
  ⟨⟨rfl, rfl, rfl⟩,
   complete_payload okBackend errBackend okBackend NudgeState.init
     "git sta" "/home/u/proj" "s1" 7 1 2 "git status" none "backend failure"
     rfl rfl rfl⟩

/-- C6: auto_trigger on a Pending machine completes the queued snapshot
immediately, delivering through the callback and user_data supplied to this
call, and consumes the snapshot so that no second delivery can occur (a
repeated trigger fails); on an Armed machine with nothing pending it fails
with the Runtime "nothing pending" condition without delivering anything. -/
theorem auto_trigger_spec (B : Backend) (st st3 : NudgeState)
    (d d3 : DebounceState) (req : Request) (cb ud : Nat)
    (hf : st.freed = false) (ha : st.auto = some d)
    (hp : d.phase = Phase.pending) (hq : d.pending_request = some req)
    (hf3 : st3.freed = false) (ha3 : st3.auto = some d3)
    (hp3 : d3.phase = Phase.armed) (hq3 : d3.pending_request = none) :
    (∃ inv : Invocation, (nudge_auto_trigger B (some st) cb ud).2.2 = [inv] ∧
       inv.cb = cb ∧ inv.user_data = ud)
  ∧ (∃ st2 d2, (nudge_auto_trigger B (some st) cb ud).1 = some st2 ∧
       st2.auto = some d2 ∧ d2.phase = Phase.armed ∧ d2.pending_request = none ∧
       (nudge_auto_trigger B (some st2) cb ud).2.2 = [] ∧
       (nudge_auto_trigger B (some st2) cb ud).2.1 = NudgeError.runtime.toInt)
  ∧ (nudge_auto_trigger B (some st3) cb ud).2.1 = NudgeError.runtime.toInt
  ∧ (nudge_auto_trigger B (some st3) cb ud).2.2 = []
  ∧ (nudge_auto_trigger B (some st3) cb ud).1 =
      some { st3 with error_slot := some nothingPendingRecord } := by
  have hph : ¬ (d.phase = Phase.inactive ∨ d.phase = Phase.stopped) := by
    simp [hp]
  have hph3 : ¬ (d3.phase = Phase.inactive ∨ d3.phase = Phase.stopped) := by
    simp [hp3]
  refine ⟨?_, ?_, ?_, ?_, ?_⟩
  · cases hB : B req with
    | ok sug w =>
      exact ⟨⟨cb, ud, some sug, w, none⟩,
        by simp [nudge_auto_trigger, hf, ha, hph, hq, hB], rfl, rfl⟩
    | err r =>
      exact ⟨⟨cb, ud, none, none, some r⟩,
        by simp [nudge_auto_trigger, hf, ha, hph, hq, hB], rfl, rfl⟩
  · cases hB : B req with
    | ok sug w =>
      refine ⟨{ st with auto := some d.fired, last_auto_suggestion := some sug },
        d.fired, by simp [nudge_auto_trigger, hf, ha, hph, hq, hB],
        rfl, rfl, rfl, ?_, ?_⟩ <;>
        simp [nudge_auto_trigger, hf, DebounceState.fired]
    | err r =>
      refine ⟨{ st with auto := some d.fired, error_slot := some ⟨NudgeError.runtime, r⟩ },
        d.fired, by simp [nudge_auto_trigger, hf, ha, hph, hq, hB],
        rfl, rfl, rfl, ?_, ?_⟩ <;>
        simp [nudge_auto_trigger, hf, DebounceState.fired]
  · simp [nudge_auto_trigger, hf3, ha3, hph3, hq3]
  · simp [nudge_auto_trigger, hf3, ha3, hph3, hq3]
  · simp [nudge_auto_trigger, hf3, ha3, hph3, hq3]

/-- Witness for C6 at a concrete pending handle and a concrete armed handle
with nothing pending, using callback id 9 distinct from the stored id 7. -/
theorem auto_trigger_spec_witness :
    (pendingHandle.freed = false ∧ pendingHandle.auto = some pendingMachine ∧
     pendingMachine.phase = Phase.pending ∧
     pendingMachine.pending_request = some reqX ∧
     armedHandle.freed = false ∧ armedHandle.auto = some armedMachine ∧
     armedMachine.phase = Phase.armed ∧ armedMachine.pending_request = none)
  ∧ ((∃ inv : Invocation,
        (nudge_auto_trigger okBackend (some pendingHandle) 9 1).2.2 = [inv] ∧
        inv.cb = 9 ∧ inv.user_data = 1)
     ∧ (∃ st2 d2,
          (nudge_auto_trigger okBackend (some pendingHandle) 9 1).1 = some st2 ∧
          st2.auto = some d2 ∧ d2.phase = Phase.armed ∧ d2.pending_request = none ∧
          (nudge_auto_trigger okBackend (some st2) 9 1).2.2 = [] ∧
          (nudge_auto_trigger okBackend (some st2) 9 1).2.1 = NudgeError.runtime.toInt)
     ∧ (nudge_auto_trigger okBackend (some armedHandle) 9 1).2.1 = NudgeError.runtime.toInt
     ∧ (nudge_auto_trigger okBackend (some armedHandle) 9 1).2.2 = []
     ∧ (nudge_auto_trigger okBackend (some armedHandle) 9 1).1 =
         some { armedHandle with error_slot := some nothingPendingRecord }) :=
  ⟨⟨rfl, rfl, rfl, rfl, rfl, rfl, rfl, rfl⟩,
   auto_trigger_spec okBackend pendingHandle armedHandle pendingMachine
     armedMachine reqX 9 1 rfl rfl rfl rfl rfl rfl rfl rfl⟩

/-- C8: a successful auto-mode completion overwrites last_auto_suggestion
with the new suggestion; a failed attempt leaves the slot unchanged, as does
a one-shot complete; auto_get_suggestion returns the slot, and it is absent
on a fresh handle where no auto-mode suggestion has ever succeeded. -/
theorem last_auto_suggestion_spec (Bok Berr : Backend) (st : NudgeState)
    (d : DebounceState) (req : Request) (cb ud : Nat) (sug : String)
    (w : Option String) (r : String) (b : CStr) (cur : Int) (c s : CStr)
    (hf : st.freed = false) (ha : st.auto = some d)
    (hp : d.phase = Phase.pending) (hq : d.pending_request = some req)
    (hok : Bok req = BackendResult.ok sug w)
    (herr : Berr req = BackendResult.err r) :
    (∃ st2, (nudge_auto_trigger Bok (some st) cb ud).1 = some st2 ∧
       st2.last_auto_suggestion = some sug ∧
       nudge_auto_get_suggestion (some st2) = some sug)
  ∧ (∃ st2, (nudge_auto_trigger Berr (some st) cb ud).1 = some st2 ∧
       st2.last_auto_suggestion = st.last_auto_suggestion ∧
       nudge_auto_get_suggestion (some st2) = st.last_auto_suggestion)
  ∧ nudge_auto_get_suggestion (some st) = st.last_auto_suggestion
  ∧ NudgeState.init.last_auto_suggestion = none
  ∧ nudge_auto_get_suggestion (some NudgeState.init) = none
  ∧ (∃ st4, (nudge_complete Bok (some st) b cur c s cb ud).1 = some st4 ∧
       st4.last_auto_suggestion = st.last_auto_suggestion) := by
  have hph : ¬ (d.phase = Phase.inactive ∨ d.phase = Phase.stopped) := by
    simp [hp]
  refine ⟨?_, ?_, ?_, rfl, rfl, ?_⟩
  · exact ⟨{ st with auto := some d.fired, last_auto_suggestion := some sug },
      by simp [nudge_auto_trigger, hf, ha, hph, hq, hok],
      rfl, by simp [nudge_auto_get_suggestion, hf]⟩
  · exact ⟨{ st with auto := some d.fired, error_slot := some ⟨NudgeError.runtime, r⟩ },
      by simp [nudge_auto_trigger, hf, ha, hph, hq, herr],
      rfl, by simp [nudge_auto_get_suggestion, hf]⟩
  · simp [nudge_auto_get_suggestion, hf]
  · cases hb : buildRequest b cur c s with
    | error e =>
      exact ⟨{ st with error_slot := some ⟨e, e.defaultMessage⟩ },
        by simp [nudge_complete, hf, hb], rfl⟩
    | ok req2 =>
      cases hB : Bok req2 with
      | ok s2 w2 => exact ⟨st, by simp [nudge_complete, hf, hb, hB], rfl⟩
      | err r2 =>
        exact ⟨{ st with error_slot := some ⟨NudgeError.runtime, r2⟩ },
          by simp [nudge_complete, hf, hb, hB], rfl⟩

/-- Witness for C8 at a concrete pending handle with a succeeding and a
failing backend. -/
theorem last_auto_suggestion_spec_witness :
    (pendingHandle.freed = false ∧ pendingHandle.auto = some pendingMachine ∧
     pendingMachine.phase = Phase.pending ∧
     pendingMachine.pending_request = some reqX ∧
     okBackend reqX = BackendResult.ok "git status" none ∧
     errBackend reqX = BackendResult.err "backend failure")
  ∧ ((∃ st2, (nudge_auto_trigger okBackend (some pendingHandle) 9 1).1 = some st2 ∧
        st2.last_auto_suggestion = some "git status" ∧
        nudge_auto_get_suggestion (some st2) = some "git status")
     ∧ (∃ st2, (nudge_auto_trigger errBackend (some pendingHandle) 9 1).1 = some st2 ∧
          st2.last_auto_suggestion = pendingHandle.last_auto_suggestion ∧
          nudge_auto_get_suggestion (some st2) = pendingHandle.last_auto_suggestion)
     ∧ nudge_auto_get_suggestion (some pendingHandle) = pendingHandle.last_auto_suggestion
     ∧ NudgeState.init.last_auto_suggestion = none
     ∧ nudge_auto_get_suggestion (some NudgeState.init) = none
     ∧ (∃ st4, (nudge_complete okBackend (some pendingHandle) (CStr.valid "x") 0 (CStr.valid "/") (CStr.valid "t") 9 1).1 = some st4 ∧
          st4.last_auto_suggestion = pendingHandle.last_auto_suggestion)) :=
  ⟨⟨rfl, rfl, rfl, rfl, rfl, rfl⟩,
   last_auto_suggestion_spec okBackend errBackend pendingHandle pendingMachine
     reqX 9 1 "git status" none "backend failure"
     (CStr.valid "x") 0 (CStr.valid "/") (CStr.valid "t")
     rfl rfl rfl rfl rfl rfl⟩

end Nudge
